import Mathlib

/-!
Shallow embedding of the AI-Thumb client (React SPA) for verification.

The embedding mirrors the source files:
* `AuthCallback` (pages/AuthCallback.jsx): a `useRef` processed-flag guards a
  one-shot effect that parses `session_id` out of the URL fragment, exchanges
  it via `GET /api/auth/session-data` with an `X-Session-ID` header and
  navigates; the effect body is `authCallbackEffect`, re-renders are modelled
  by iterating it.
* `Editor.handleGenerate` (pages/Editor.jsx): input guards, then
  `POST /api/generate`; success stores `data.image` and overwrites the credit
  balance with `data.credits`; failure only toasts.
* `AuthContext.checkAuth` / `logout`, `Dashboard.fetchThumbnails`,
  `Pricing.handleSubscribe`: modelled as event traces to reason about the
  ordering of state updates relative to request/response and about which
  failures surface a toast.

Backends are parameters (`ApiResult`-valued functions): an `err` result is an
axios rejection caught by the surrounding `try/catch`.
-/

/-- A user record as returned by the backend (`/api/auth/me`,
`/api/auth/session-data`): identifier, display name, credit balance. -/
structure UserRec where
  id : String
  name : String
  credits : Int
deriving Repr, DecidableEq

/-- Outcome of an axios call: `ok` carries the parsed response body, `err` is
any rejection (network failure, non-2xx status), indistinguishable to the
client code which lands in `catch`. -/
inductive ApiResult (α : Type) where
  | ok : α → ApiResult α
  | err : ApiResult α
deriving Repr, DecidableEq

/-- Split a character list at every occurrence of `c` (separator dropped);
an empty input yields one empty segment, matching `"".split("&")`. -/
def splitOnChar (c : Char) : List Char → List (List Char)
  | [] => [[]]
  | x :: xs =>
    let r := splitOnChar c xs
    if x = c then [] :: r
    else
      match r with
      | [] => [[x]]
      | h :: t => (x :: h) :: t

/-- Re-join segments with the separator `c` (used to recover everything after
the first `=` of a `key=value` pair). -/
def joinWith (c : Char) : List (List Char) → List Char
  | [] => []
  | [x] => x
  | x :: xs => x ++ c :: joinWith c xs

/-- `new URLSearchParams(query).get(key)`: split on `&`, each pair is the text
before the first `=` (the key) and everything after it (the value, empty when
there is no `=`); return the first value whose key matches, `none` when the
key is absent.  Percent-decoding is not modelled (no claim depends on it). -/
def urlSearchParamsGet (query key : String) : Option String :=
  ((splitOnChar '&' query.toList).filterMap fun pair =>
    match splitOnChar '=' pair with
    | [] => none
    | k :: rest =>
      if k = key.toList then some (String.mk (joinWith '=' rest)) else none).head?

/-- A backend request as issued by the client: method, endpoint path and the
explicitly set headers. -/
structure ApiRequest where
  method : String
  endpoint : String
  headers : List (String × String)
deriving Repr, DecidableEq

/-- The session-exchange request of `AuthCallback.processAuth`:
`GET /api/auth/session-data` with the session identifier in the
`X-Session-ID` header. -/
def sessionDataRequest (sid : String) : ApiRequest :=
  { method := "GET", endpoint := "/api/auth/session-data",
    headers := [("X-Session-ID", sid)] }

/-- Response body of `GET /api/auth/session-data`; the component reads
`data.user`. -/
structure SessionDataResp where
  user : UserRec
deriving Repr, DecidableEq

/-- State visible to the `AuthCallback` component during one page load:
the `hasProcessed` ref, the context user (`setUser`), the navigation target
(last `navigate(...)` call) and the log of session-exchange requests issued. -/
structure CallbackState where
  hasProcessed : Bool
  user : Option UserRec
  route : Option String
  exchangeLog : List ApiRequest
deriving Repr, DecidableEq

/-- State at the start of a page load of the callback view: flag unset,
unauthenticated, no navigation, no request issued yet. -/
def initCallbackState : CallbackState :=
  { hasProcessed := false, user := none, route := none, exchangeLog := [] }

/-- `processAuth` (AuthCallback.jsx): issue the session exchange carrying the
identifier as the `X-Session-ID` header; on success store `data.user` via
`setUser` and navigate to `/dashboard`; on failure navigate to `/`. -/
def exchangeStep (backend : String → ApiResult SessionDataResp) (sid : String)
    (s : CallbackState) : CallbackState :=
  let s2 := { s with exchangeLog := s.exchangeLog ++ [sessionDataRequest sid] }
  match backend sid with
  | ApiResult.ok data => { s2 with user := some data.user, route := some "/dashboard" }
  | ApiResult.err => { s2 with route := some "/" }

/-- Body of the `useEffect` after the processed-flag has been set: parse
`session_id` from the fragment (dropping the leading `#`); `!sessionId`
(absent or empty, both falsy) navigates home, otherwise run `processAuth`. -/
def effectBody (hash : String) (backend : String → ApiResult SessionDataResp)
    (s : CallbackState) : CallbackState :=
  match urlSearchParamsGet (hash.drop 1) "session_id" with
  | none => { s with route := some "/" }
  | some sid =>
    if sid = "" then { s with route := some "/" }
    else exchangeStep backend sid s

/-- One invocation of the `AuthCallback` effect: return immediately when
`hasProcessed.current` is set, otherwise set it and run the body.  A page
load that re-renders `n` times invokes this `n` times on the same state. -/
def authCallbackEffect (hash : String) (backend : String → ApiResult SessionDataResp)
    (s : CallbackState) : CallbackState :=
  if s.hasProcessed then s
  else effectBody hash backend { s with hasProcessed := true }

/-- The state after the first effect invocation of a page load. -/
def callbackRun (hash : String) (backend : String → ApiResult SessionDataResp) :
    CallbackState :=
  authCallbackEffect hash backend initCallbackState

lemma effectBody_hasProcessed (hash : String) (backend : String → ApiResult SessionDataResp)
    (s : CallbackState) : (effectBody hash backend s).hasProcessed = s.hasProcessed := by
  unfold effectBody exchangeStep
  cases urlSearchParamsGet (hash.drop 1) "session_id" with
  | none => rfl
  | some sid =>
    by_cases h : sid = ""
    · simp [h]
    · simp only [h, if_false]
      cases backend sid <;> rfl

lemma authCallbackEffect_hasProcessed (hash : String)
    (backend : String → ApiResult SessionDataResp) (s : CallbackState) :
    (authCallbackEffect hash backend s).hasProcessed = true := by
  unfold authCallbackEffect
  by_cases h : s.hasProcessed
  · simp [h]
  · simp [h, effectBody_hasProcessed]

lemma authCallbackEffect_fixed (hash : String)
    (backend : String → ApiResult SessionDataResp) (s : CallbackState)
    (h : s.hasProcessed = true) : authCallbackEffect hash backend s = s := by
  unfold authCallbackEffect
  simp [h]

lemma authCallbackEffect_iterate_collapse (hash : String)
    (backend : String → ApiResult SessionDataResp) (n : Nat) :
    (authCallbackEffect hash backend)^[n] (callbackRun hash backend)
      = callbackRun hash backend := by
  induction n with
  | zero => rfl
  | succ k ih =>
    rw [Function.iterate_succ_apply,
      authCallbackEffect_fixed hash backend (callbackRun hash backend)
        (authCallbackEffect_hasProcessed hash backend initCallbackState)]
    exact ih

lemma callbackRun_log_len (hash : String) (backend : String → ApiResult SessionDataResp) :
    (callbackRun hash backend).exchangeLog.length ≤ 1 := by
  unfold callbackRun authCallbackEffect effectBody exchangeStep initCallbackState
  simp only [Bool.false_eq_true, if_false]
  cases urlSearchParamsGet (hash.drop 1) "session_id" with
  | none => simp
  | some sid =>
    by_cases h : sid = ""
    · simp [h]
    · simp only [h, if_false]
      cases backend sid <;> simp

/-- C1: across any number of re-renders of one page load, the session exchange
is attempted at most once (the request log never exceeds one entry), and after
the first effect invocation every further invocation leaves the entire state —
user, route and request log — exactly as the first left it, so a successful
exchange moves the auth state to authenticated exactly once and the session
identifier is never used again. -/
theorem C1_exchange_at_most_once (hash : String)
    (backend : String → ApiResult SessionDataResp) (n : Nat) :
    ((authCallbackEffect hash backend)^[n] initCallbackState).exchangeLog.length ≤ 1 ∧
    (authCallbackEffect hash backend)^[n + 1] initCallbackState
      = callbackRun hash backend := by
  constructor
  · cases n with
    | zero => simp [initCallbackState]
    | succ k =>
      rw [Function.iterate_succ_apply]
      rw [show authCallbackEffect hash backend initCallbackState = callbackRun hash backend
        from rfl]
      rw [authCallbackEffect_iterate_collapse]
      exact callbackRun_log_len hash backend
  · rw [Function.iterate_succ_apply]
    exact authCallbackEffect_iterate_collapse hash backend n

/-- C2: when the fragment carries a (non-empty) session identifier, the
handler issues exactly one `GET /api/auth/session-data` request with the
identifier in the `X-Session-ID` header; on success it stores the returned
user record and navigates to `/dashboard`, on failure it navigates to `/`. -/
theorem C2_session_exchange (hash : String)
    (backend : String → ApiResult SessionDataResp) (sid : String)
    (hp : urlSearchParamsGet (hash.drop 1) "session_id" = some sid)
    (hne : sid ≠ "") :
    (callbackRun hash backend).exchangeLog = [sessionDataRequest sid] ∧
    (match backend sid with
     | ApiResult.ok data =>
        (callbackRun hash backend).user = some data.user ∧
        (callbackRun hash backend).route = some "/dashboard"
     | ApiResult.err => (callbackRun hash backend).route = some "/") := by
  unfold callbackRun authCallbackEffect effectBody exchangeStep initCallbackState
  simp only [Bool.false_eq_true, if_false, hp, hne]
  cases backend sid <;> simp [hne]

/-- Demo backend for witnesses: answers session identifier "abc" with a fixed
user record and rejects everything else. -/
def demoBackend : String → ApiResult SessionDataResp := fun sid =>
  if sid = "abc" then ApiResult.ok ⟨⟨"u1", "Ada", 10⟩⟩ else ApiResult.err

theorem C2_session_exchange_witness :
    (callbackRun "#session_id=abc" demoBackend).exchangeLog
        = [sessionDataRequest "abc"] ∧
    (match demoBackend "abc" with
     | ApiResult.ok data =>
        (callbackRun "#session_id=abc" demoBackend).user = some data.user ∧
        (callbackRun "#session_id=abc" demoBackend).route = some "/dashboard"
     | ApiResult.err => (callbackRun "#session_id=abc" demoBackend).route = some "/") :=
  C2_session_exchange "#session_id=abc" demoBackend "abc" (by decide) (by decide)

/-- C3: when the fragment has no session identifier (absent key, or empty and
hence falsy), the handler navigates home, issues no backend request, and the
user state is untouched. -/
theorem C3_no_session_goes_home (hash : String)
    (backend : String → ApiResult SessionDataResp)
    (h : urlSearchParamsGet (hash.drop 1) "session_id" = none ∨
         urlSearchParamsGet (hash.drop 1) "session_id" = some "") :
    (callbackRun hash backend).route = some "/" ∧
    (callbackRun hash backend).exchangeLog = [] ∧
    (callbackRun hash backend).user = initCallbackState.user := by
  unfold callbackRun authCallbackEffect effectBody initCallbackState
  rcases h with h | h <;> simp [h]

theorem C3_no_session_goes_home_witness :
    (callbackRun "" demoBackend).route = some "/" ∧
    (callbackRun "" demoBackend).exchangeLog = [] ∧
    (callbackRun "" demoBackend).user = initCallbackState.user :=
  C3_no_session_goes_home "" demoBackend (Or.inl (by decide))

/-- Payload of `POST /api/generate` as assembled by `Editor.handleGenerate`:
the description, overlay text, aspect ratio, and the two upload previews
(base64 data-URL strings). -/
structure GeneratePayload where
  description : String
  thumbnail_text : String
  aspect_ratio : String
  subject_image : Option String
  reference_image : Option String
deriving Repr, DecidableEq

/-- Response body of `POST /api/generate`: the generated image reference and
the updated credit balance. -/
structure GenerateResp where
  image : String
  credits : Int
deriving Repr, DecidableEq

/-- A sonner toast: transient, dismissible user-facing notification. -/
inductive Toast where
  | error (msg : String)
  | success (msg : String)
deriving Repr, DecidableEq

/-- The `Editor` component state plus the context user it reads and writes:
form fields, the upload `File`s (modelled by name) and their base64 previews,
the `loading` flag driving `disabled={loading}`, the displayed generated
image, and the authenticated user (non-null behind `ProtectedRoute`). -/
structure EditorState where
  description : String
  thumbnailText : String
  aspectRatio : String
  subjectImage : Option String
  referenceImage : Option String
  subjectPreview : Option String
  referencePreview : Option String
  loading : Bool
  generatedImage : Option String
  user : UserRec
deriving Repr, DecidableEq

/-- The payload `handleGenerate` builds from the current state. -/
def payloadOf (s : EditorState) : GeneratePayload :=
  { description := s.description, thumbnail_text := s.thumbnailText,
    aspect_ratio := s.aspectRatio, subject_image := s.subjectPreview,
    reference_image := s.referencePreview }

/-- Result of one `handleGenerate` invocation: the state afterwards, the
request sent (`none` when a guard returned early) and the toasts shown. -/
structure GenerateOutcome where
  state : EditorState
  request : Option GeneratePayload
  toasts : List Toast
deriving Repr, DecidableEq

/-- `Editor.handleGenerate`: `!description || !subjectImage || !referenceImage`
toasts and returns; `user.credits <= 0` toasts and returns; otherwise POST the
payload; on success store `data.image` and replace the user's credits with
`data.credits`; on failure only toast.  `loading` ends `false` (finally). -/
def handleGenerate (backend : GeneratePayload → ApiResult GenerateResp)
    (s : EditorState) : GenerateOutcome :=
  if s.description = "" ∨ s.subjectImage = none ∨ s.referenceImage = none then
    { state := s, request := none,
      toasts := [Toast.error "Please fill in description and upload both images"] }
  else if s.user.credits ≤ 0 then
    { state := s, request := none, toasts := [Toast.error "Not enough credits!"] }
  else
    match backend (payloadOf s) with
    | ApiResult.ok data =>
      { state :=
          { s with
            loading := false,
            generatedImage := some data.image,
            user := { s.user with credits := data.credits } },
        request := some (payloadOf s),
        toasts := [Toast.success "Thumbnail generated!"] }
    | ApiResult.err =>
      { state := { s with loading := false },
        request := some (payloadOf s),
        toasts := [Toast.error "Generation failed. Try again."] }

/-- C4: after a successful generation call, the displayed credit balance is
exactly the `credits` value of the backend response. -/
theorem C4_credits_from_backend (backend : GeneratePayload → ApiResult GenerateResp)
    (s : EditorState) (data : GenerateResp)
    (hok : backend (payloadOf s) = ApiResult.ok data)
    (hguard : ¬(s.description = "" ∨ s.subjectImage = none ∨ s.referenceImage = none))
    (hcred : ¬s.user.credits ≤ 0) :
    (handleGenerate backend s).state.user.credits = data.credits := by
  unfold handleGenerate
  simp [hguard, hcred, hok]

/-- A concrete editor state with complete inputs and ten credits. -/
def editorS0 : EditorState :=
  { description := "cat", thumbnailText := "WOW", aspectRatio := "16:9",
    subjectImage := some "subject.png", referenceImage := some "ref.png",
    subjectPreview := some "data:subj", referencePreview := some "data:ref",
    loading := false, generatedImage := none,
    user := { id := "u1", name := "Ada", credits := 10 } }

/-- A backend that returns an image and a credit balance of 5 — deliberately
not one less than `editorS0`'s ten. -/
def genBackend0 : GeneratePayload → ApiResult GenerateResp := fun _ =>
  ApiResult.ok { image := "data:image/png;gen", credits := 5 }

theorem C4_credits_from_backend_witness :
    genBackend0 (payloadOf editorS0) = ApiResult.ok ⟨"data:image/png;gen", 5⟩ ∧
    (handleGenerate genBackend0 editorS0).state.user.credits = (5 : Int) :=
  ⟨by decide, C4_credits_from_backend genBackend0 editorS0 ⟨"data:image/png;gen", 5⟩
    (by decide) (by decide) (by decide)⟩

/-- C5 counterexample: with ten credits and a backend answering five, the
balance after a successful generation is the backend value 5, not the
optimistic decrement 10 − 1 = 9. -/
theorem C5_counterexample :
    (handleGenerate genBackend0 editorS0).state.user.credits ≠
      editorS0.user.credits - 1 := by decide

/-- C5 (amended): the credit balance is mutated locally only upon a successful
generation call, and then it is overwritten with the backend-returned
`credits` value rather than decremented; every other path leaves it
unchanged. -/
theorem C5_credits_replaced_not_decremented
    (backend : GeneratePayload → ApiResult GenerateResp) (s : EditorState) :
    (handleGenerate backend s).state.user.credits = s.user.credits ∨
    ∃ data, backend (payloadOf s) = ApiResult.ok data ∧
      (handleGenerate backend s).request = some (payloadOf s) ∧
      (handleGenerate backend s).state.user.credits = data.credits := by
  unfold handleGenerate
  by_cases h1 : s.description = "" ∨ s.subjectImage = none ∨ s.referenceImage = none
  · simp [h1]
  · by_cases h2 : s.user.credits ≤ 0
    · simp [h1, h2]
    · cases hb : backend (payloadOf s) with
      | ok data =>
        right
        refine ⟨data, rfl, ?_, ?_⟩ <;> simp [h1, h2]
      | err => simp [h1, h2, hb]

/-- C6: a failed generation call leaves both the displayed generated image and
the credit balance exactly as they were. -/
theorem C6_failure_leaves_state (backend : GeneratePayload → ApiResult GenerateResp)
    (s : EditorState) (herr : backend (payloadOf s) = ApiResult.err) :
    (handleGenerate backend s).state.generatedImage = s.generatedImage ∧
    (handleGenerate backend s).state.user.credits = s.user.credits := by
  unfold handleGenerate
  by_cases h1 : s.description = "" ∨ s.subjectImage = none ∨ s.referenceImage = none
  · simp [h1]
  · by_cases h2 : s.user.credits ≤ 0
    · simp [h1, h2]
    · simp [h1, h2, herr]

/-- A backend whose generation call always fails. -/
def genBackendErr : GeneratePayload → ApiResult GenerateResp := fun _ => ApiResult.err

theorem C6_failure_leaves_state_witness :
    genBackendErr (payloadOf editorS0) = ApiResult.err ∧
    (handleGenerate genBackendErr editorS0).state.generatedImage
        = editorS0.generatedImage ∧
    (handleGenerate genBackendErr editorS0).state.user.credits
        = editorS0.user.credits :=
  ⟨by decide, C6_failure_leaves_state genBackendErr editorS0 (by decide)⟩

/-- C10: when the description is empty, either upload is missing, or the
balance is not positive, `handleGenerate` sends no request, returns the state
completely unchanged, and shows a notice. -/
theorem C10_guards_block_request (backend : GeneratePayload → ApiResult GenerateResp)
    (s : EditorState)
    (h : s.description = "" ∨ s.subjectImage = none ∨ s.referenceImage = none ∨
         s.user.credits ≤ 0) :
    (handleGenerate backend s).request = none ∧
    (handleGenerate backend s).state = s ∧
    (handleGenerate backend s).toasts ≠ [] := by
  unfold handleGenerate
  by_cases h1 : s.description = "" ∨ s.subjectImage = none ∨ s.referenceImage = none
  · simp [h1]
  · have h2 : s.user.credits ≤ 0 := by
      rcases h with h | h | h | h
      · exact absurd (Or.inl h) h1
      · exact absurd (Or.inr (Or.inl h)) h1
      · exact absurd (Or.inr (Or.inr h)) h1
      · exact h
    simp [h1, h2]

/-- An editor state with an empty description (and ten credits). -/
def editorSEmptyDesc : EditorState := { editorS0 with description := "" }

theorem C10_guards_block_request_witness :
    (editorSEmptyDesc.description = "" ∨ editorSEmptyDesc.subjectImage = none ∨
      editorSEmptyDesc.referenceImage = none ∨ editorSEmptyDesc.user.credits ≤ 0) ∧
    (handleGenerate genBackend0 editorSEmptyDesc).request = none ∧
    (handleGenerate genBackend0 editorSEmptyDesc).state = editorSEmptyDesc ∧
    (handleGenerate genBackend0 editorSEmptyDesc).toasts ≠ [] :=
  ⟨Or.inl (by decide),
    C10_guards_block_request genBackend0 editorSEmptyDesc (Or.inl (by decide))⟩

/-- A history entry returned by `GET /api/thumbnails` (Dashboard.jsx reads
`description`, `style`, `image_url`, `created_at`). -/
structure ThumbnailRecord where
  description : String
  style : String
  image_url : Option String
  created_at : String
deriving Repr, DecidableEq

/-- Response body of `POST /api/create-checkout-session`: the external
checkout URL the browser is sent to. -/
structure CheckoutResp where
  url : String
deriving Repr, DecidableEq

/-- Primitive observable steps of a handler, in program order: flipping the
`loading` flag (the submit control renders `disabled={loading}`), issuing a
request, its resolution, a sonner toast (transient, dismissible), `setUser`
updates, `navigate`, full-page `window.location.href` assignment, a
`console.error`, and `fatal` for an exception escaping the handler (never
produced: every call site wraps the await in `try/catch`). -/
inductive UiEvent where
  | setLoading (value : Bool)
  | request (endpoint : String)
  | response (ok : Bool)
  | toast (t : Toast)
  | setUserCleared
  | setUserSet
  | setGeneratedImage
  | setThumbnails
  | navigate (route : String)
  | redirect (url : String)
  | consoleError (msg : String)
  | fatal
deriving Repr, DecidableEq

def isToastEv : UiEvent → Bool
  | UiEvent.toast _ => true
  | _ => false

def isFatalEv : UiEvent → Bool
  | UiEvent.fatal => true
  | _ => false

def isFailedResponseEv : UiEvent → Bool
  | UiEvent.response false => true
  | _ => false

def isClearEv : UiEvent → Bool
  | UiEvent.setUserCleared => true
  | _ => false

def isSetLoadingEv : UiEvent → Bool
  | UiEvent.setLoading _ => true
  | _ => false

def isRequestEv : UiEvent → Bool
  | UiEvent.request _ => true
  | _ => false

/-- The trace contains a toast event. -/
def hasToast (tr : List UiEvent) : Bool := tr.any isToastEv

/-- The trace contains an escaped exception. -/
def hasFatal (tr : List UiEvent) : Bool := tr.any isFatalEv

/-- The trace contains a failed backend response. -/
def hasFailedResponse (tr : List UiEvent) : Bool := tr.any isFailedResponseEv

/-- The trace clears the user state (`setUser(null)`). -/
def hasClear (tr : List UiEvent) : Bool := tr.any isClearEv

/-- The trace touches a `loading` flag. -/
def hasSetLoading (tr : List UiEvent) : Bool := tr.any isSetLoadingEv

/-- The trace issues a backend request. -/
def hasRequest (tr : List UiEvent) : Bool := tr.any isRequestEv

/-- Walk the trace tracking the `acked` flag (set by a successful response):
every `setUser(null)` must occur after an acknowledgment. -/
def clearsOnlyAfterAckAux : Bool → List UiEvent → Bool
  | _, [] => true
  | _, UiEvent.response true :: tl => clearsOnlyAfterAckAux true tl
  | acked, UiEvent.setUserCleared :: tl => acked && clearsOnlyAfterAckAux acked tl
  | acked, _ :: tl => clearsOnlyAfterAckAux acked tl

/-- Every clearing of the user state in the trace happens after a successful
backend acknowledgment. -/
def clearsOnlyAfterAck (tr : List UiEvent) : Bool := clearsOnlyAfterAckAux false tr

/-- Walk the trace tracking the `disabled` state of the initiating control:
every request must be issued while the control is disabled. -/
def requestsWhileDisabledAux : Bool → List UiEvent → Bool
  | _, [] => true
  | _, UiEvent.setLoading b :: tl => requestsWhileDisabledAux b tl
  | dis, UiEvent.request _ :: tl => dis && requestsWhileDisabledAux dis tl
  | dis, _ :: tl => requestsWhileDisabledAux dis tl

/-- Every request in the trace is issued while the initiating control is
disabled (`loading = true`). -/
def requestsWhileDisabled (tr : List UiEvent) : Bool :=
  requestsWhileDisabledAux false tr

/-- Walk the trace tracking whether a request is in flight: the control must
not be re-enabled (`setLoading false`) before the request resolves. -/
def noEnableInFlightAux : Bool → List UiEvent → Bool
  | _, [] => true
  | _, UiEvent.request _ :: tl => noEnableInFlightAux true tl
  | _, UiEvent.response _ :: tl => noEnableInFlightAux false tl
  | inFlight, UiEvent.setLoading false :: tl =>
      !inFlight && noEnableInFlightAux inFlight tl
  | inFlight, _ :: tl => noEnableInFlightAux inFlight tl

/-- The initiating control is never re-enabled while a request is in flight. -/
def noEnableInFlight (tr : List UiEvent) : Bool := noEnableInFlightAux false tr

/-- The handler suspends its initiating interaction: requests go out only
while the control is disabled, and it is re-enabled only after resolution. -/
def suspendsInteraction (tr : List UiEvent) : Bool :=
  requestsWhileDisabled tr && noEnableInFlight tr

/-- `AuthContext.checkAuth`: `GET /api/auth/me`; success `setUser(data)`,
failure `setUser(null)`; finally `setLoading(false)`. -/
def checkAuthTrace (r : ApiResult UserRec) : List UiEvent :=
  UiEvent.request "/api/auth/me" ::
    (match r with
     | ApiResult.ok _ => [UiEvent.response true, UiEvent.setUserSet]
     | ApiResult.err => [UiEvent.response false, UiEvent.setUserCleared]) ++
    [UiEvent.setLoading false]

/-- `AuthContext.logout`: `POST /api/auth/logout`; only after it resolves
successfully, `setUser(null)` then `window.location.href = '/'`; on failure
just `console.error`. -/
def logoutTrace (r : ApiResult Unit) : List UiEvent :=
  UiEvent.request "/api/auth/logout" ::
    match r with
    | ApiResult.ok _ =>
        [UiEvent.response true, UiEvent.setUserCleared, UiEvent.redirect "/"]
    | ApiResult.err => [UiEvent.response false, UiEvent.consoleError "Logout failed"]

/-- `Dashboard.fetchThumbnails`: `GET /api/thumbnails`; success
`setThumbnails(data)`, failure `console.error`; finally `setLoading(false)`. -/
def fetchThumbnailsTrace (r : ApiResult (List ThumbnailRecord)) : List UiEvent :=
  UiEvent.request "/api/thumbnails" ::
    (match r with
     | ApiResult.ok _ => [UiEvent.response true, UiEvent.setThumbnails]
     | ApiResult.err =>
        [UiEvent.response false, UiEvent.consoleError "Failed to fetch thumbnails"]) ++
    [UiEvent.setLoading false]

/-- `AuthCallback.processAuth` as a trace (same branches as `exchangeStep`):
failure logs `Auth failed` and navigates home — no toast. -/
def processAuthTrace (sid : String)
    (backend : String → ApiResult SessionDataResp) : List UiEvent :=
  UiEvent.request "/api/auth/session-data" ::
    match backend sid with
    | ApiResult.ok _ =>
        [UiEvent.response true, UiEvent.setUserSet, UiEvent.navigate "/dashboard"]
    | ApiResult.err =>
        [UiEvent.response false, UiEvent.consoleError "Auth failed",
         UiEvent.navigate "/"]

/-- `Editor.handleGenerate` as a trace: guard toasts return early without
touching `loading`; otherwise `setLoading(true)`, the POST, branch on the
result, and the `finally` re-enable. -/
def handleGenerateTrace (backend : GeneratePayload → ApiResult GenerateResp)
    (s : EditorState) : List UiEvent :=
  if s.description = "" ∨ s.subjectImage = none ∨ s.referenceImage = none then
    [UiEvent.toast (Toast.error "Please fill in description and upload both images")]
  else if s.user.credits ≤ 0 then
    [UiEvent.toast (Toast.error "Not enough credits!")]
  else
    UiEvent.setLoading true :: UiEvent.request "/api/generate" ::
      (match backend (payloadOf s) with
       | ApiResult.ok _ =>
          [UiEvent.response true, UiEvent.setGeneratedImage, UiEvent.setUserSet,
           UiEvent.toast (Toast.success "Thumbnail generated!")]
       | ApiResult.err =>
          [UiEvent.response false, UiEvent.consoleError "generate error",
           UiEvent.toast (Toast.error "Generation failed. Try again.")]) ++
      [UiEvent.setLoading false]

/-- `Pricing.handleSubscribe`: logged-out users are sent to the identity
provider; otherwise `POST /api/create-checkout-session` and follow `data.url`,
toasting on failure.  There is no `loading` state in this component. -/
def handleSubscribeTrace (user : Option UserRec) (packId : String)
    (backend : String → ApiResult CheckoutResp) : List UiEvent :=
  match user with
  | none => [UiEvent.redirect "https://auth.emergentagent.com/"]
  | some _ =>
    UiEvent.request "/api/create-checkout-session" ::
      match backend packId with
      | ApiResult.ok data => [UiEvent.response true, UiEvent.redirect data.url]
      | ApiResult.err =>
          [UiEvent.response false, UiEvent.consoleError "checkout error",
           UiEvent.toast (Toast.error "Failed to start checkout")]

/-- C7: the logout handler clears the local user state only after the backend
has acknowledged the logout request — on acknowledgment it always clears, and
on failure it never does. -/
theorem C7_logout_clears_after_ack (r : ApiResult Unit) :
    clearsOnlyAfterAck (logoutTrace r) = true ∧
    (match r with
     | ApiResult.ok _ => hasClear (logoutTrace r) = true
     | ApiResult.err => hasClear (logoutTrace r) = false) := by
  cases r with
  | ok u => exact ⟨rfl, rfl⟩
  | err => exact ⟨rfl, rfl⟩

/-- C8 counterexample: a failed `GET /api/auth/me` in `checkAuth` is caught
but produces no toast — the failure is swallowed into `setUser(null)`, so not
every backend failure becomes a user-facing notification. -/
theorem C8_counterexample :
    hasFailedResponse (checkAuthTrace ApiResult.err) = true ∧
    hasToast (checkAuthTrace ApiResult.err) = false := by decide

/-- C8 (amended): every backend call failure is caught at its call site and
none escapes the handler (non-fatal), but only the generation and checkout
failures surface a toast; the session-check, thumbnail-fetch, logout and
session-exchange failures are handled silently (null state, console log or
redirect) with no user-facing notification. -/
theorem C8_failures_caught_selectively_toasted :
    (∀ r, hasFatal (checkAuthTrace r) = false ∧ hasToast (checkAuthTrace r) = false) ∧
    (∀ r, hasFatal (fetchThumbnailsTrace r) = false ∧
      hasToast (fetchThumbnailsTrace r) = false) ∧
    (∀ r, hasFatal (logoutTrace r) = false ∧ hasToast (logoutTrace r) = false) ∧
    (∀ sid backend, hasFatal (processAuthTrace sid backend) = false ∧
      hasToast (processAuthTrace sid backend) = false) ∧
    (∀ backend s, hasFatal (handleGenerateTrace backend s) = false ∧
      (hasFailedResponse (handleGenerateTrace backend s) = false ∨
        hasToast (handleGenerateTrace backend s) = true)) ∧
    (∀ u packId backend, hasFatal (handleSubscribeTrace u packId backend) = false ∧
      (hasFailedResponse (handleSubscribeTrace u packId backend) = false ∨
        hasToast (handleSubscribeTrace u packId backend) = true)) := by
  refine ⟨fun r => ?_, fun r => ?_, fun r => ?_, fun sid backend => ?_,
    fun backend s => ?_, fun u packId backend => ?_⟩
  · cases r <;> exact ⟨rfl, rfl⟩
  · cases r <;> exact ⟨rfl, rfl⟩
  · cases r <;> exact ⟨rfl, rfl⟩
  · unfold processAuthTrace
    cases backend sid <;> exact ⟨rfl, rfl⟩
  · unfold handleGenerateTrace
    by_cases h1 : s.description = "" ∨ s.subjectImage = none ∨ s.referenceImage = none
    · simp only [h1, if_true]
      exact ⟨rfl, Or.inl rfl⟩
    · by_cases h2 : s.user.credits ≤ 0
      · simp only [h1, h2, if_true, if_false]
        exact ⟨rfl, Or.inl rfl⟩
      · simp only [h1, h2, if_false]
        cases backend (payloadOf s)
        · exact ⟨rfl, Or.inl rfl⟩
        · exact ⟨rfl, Or.inr rfl⟩
  · unfold handleSubscribeTrace
    cases u with
    | none => exact ⟨rfl, Or.inl rfl⟩
    | some v =>
      cases backend packId
      · exact ⟨rfl, Or.inl rfl⟩
      · exact ⟨rfl, Or.inr rfl⟩

/-- A logged-in demo user and a checkout backend answering with an external
payment URL, for the Pricing counterexample. -/
def demoUser : UserRec := { id := "u1", name := "Ada", credits := 10 }

def checkoutBackendOk : String → ApiResult CheckoutResp := fun _ =>
  ApiResult.ok { url := "https://pay.example/session" }

/-- C9 counterexample: `Pricing.handleSubscribe` issues its checkout request
without ever disabling the initiating control (the component has no loading
state), so not every backend call suspends the interaction that started it. -/
theorem C9_counterexample :
    hasRequest (handleSubscribeTrace (some demoUser) "pack_pro" checkoutBackendOk)
        = true ∧
    suspendsInteraction
        (handleSubscribeTrace (some demoUser) "pack_pro" checkoutBackendOk)
      = false := by decide

/-- C9 (amended): the generation call suspends its initiating interaction —
the submit control is disabled (`loading`) before the request goes out and is
re-enabled only after it resolves — but the checkout call in `Pricing` issues
its request without touching any loading flag, leaving its control enabled
while the request is in flight. -/
theorem C9_generate_suspends_checkout_does_not :
    (∀ backend s, suspendsInteraction (handleGenerateTrace backend s) = true) ∧
    (∀ (u : UserRec) packId backend,
      hasRequest (handleSubscribeTrace (some u) packId backend) = true ∧
      hasSetLoading (handleSubscribeTrace (some u) packId backend) = false) := by
  constructor
  · intro backend s
    unfold handleGenerateTrace
    by_cases h1 : s.description = "" ∨ s.subjectImage = none ∨ s.referenceImage = none
    · simp only [h1, if_true]
      rfl
    · by_cases h2 : s.user.credits ≤ 0
      · simp only [h1, h2, if_true, if_false]
        rfl
      · simp only [h1, h2, if_false]
        cases backend (payloadOf s) <;> rfl
  · intro u packId backend
    unfold handleSubscribeTrace
    cases backend packId <;> exact ⟨rfl, rfl⟩
